import Mathlib

/-!
Shallow embedding of `update_engine_client_android.cc`: the Android
update_engine command-line client. The client parses flags, optionally
connects to the remote `IUpdateEngine` service, dispatches at most one
primary action (`suspend` / `resume` / `cancel`, or `follow` registration
followed by `update`), and maps the outcome to a process exit code, exiting
through a task posted on the message loop.
-/

set_option autoImplicit false

namespace UpdateEngineClient

/-- `android::binder::Status`: as used by this client it carries an exception
code; `isOk()` holds exactly when the exception code is 0 (`EX_NONE`). -/
structure Status where
  exceptionCode : Int
deriving DecidableEq

/-- `Status::isOk()`. -/
def Status.isOk (s : Status) : Bool := s.exceptionCode == 0

/-- `Status::ok()`. -/
def Status.okStatus : Status := ⟨0⟩

/-- The command-line flags defined in `OnInit` (`DEFINE_bool` /
`DEFINE_string`), with their declared defaults in `defaultFlags`. -/
structure Flags where
  update : Bool
  payload : String
  headers : String
  suspend : Bool
  resume : Bool
  cancel : Bool
  follow : Bool
deriving DecidableEq

/-- The default values of the flags as declared in the source. -/
def defaultFlags : Flags :=
  { update := false
    payload := "http://127.0.0.1:8080/payload"
    headers := ""
    suspend := false
    resume := false
    cancel := false
    follow := false }

/-- The behaviour of the remote `IUpdateEngine` service for one invocation:
the `Status` each synchronous call would return, and the `bound` out-param
of `bind`. -/
structure Service where
  suspendResult : Status
  resumeResult : Status
  cancelResult : Status
  bindStatus : Status
  bindBound : Bool
  applyPayloadResult : Status
deriving DecidableEq

/-- The process environment of one invocation: `argc` as passed to `main`
(1 means no arguments at all), the positional (non-flag) arguments,
the result of `android::getService` (`none` when it fails, leaving the
`service_` strong pointer null), and whether `MessageLoop::PostTask`
succeeds. -/
structure Env where
  argc : Nat
  positionalArgs : List String
  service : Option Service
  postTaskOk : Bool
deriving DecidableEq

/-- A remote call issued through the `service_` proxy, in issue order. -/
inductive Call where
  | suspend
  | resume
  | cancel
  | bind
  | applyPayload (uri : String) (headers : List String)
deriving DecidableEq

/-- `base::SplitString(s, "\n", base::KEEP_WHITESPACE, ...)` before the
non-empty filter: split on each newline, keeping every piece verbatim. -/
def splitLinesAux : List Char → List Char → List String
  | [], acc => [String.mk acc.reverse]
  | c :: rest, acc =>
    if c = '\n' then String.mk acc.reverse :: splitLinesAux rest []
    else splitLinesAux rest (c :: acc)

/-- `base::SplitString(s, "\n", base::KEEP_WHITESPACE,
base::SPLIT_WANT_NONEMPTY)`: split on newlines, drop empty pieces. -/
def splitString (s : String) : List String :=
  (splitLinesAux s.data []).filter (fun l => l ≠ "")

/-- The result of a call to `ExitWhenIdle`: the value it returns to its
caller (`EX_OK` = 0, or 1 when `PostTask` failed) and the exit codes of the
`QuitWithExitCode` tasks it posted on the message loop. -/
structure ExitReq where
  ret : Int
  posted : List Int
deriving DecidableEq

/-- `ExitWhenIdle(int return_code)`: post a deferred
`QuitWithExitCode(return_code)` task; return 1 if the task could not be
posted, `EX_OK` otherwise. -/
def exitWhenIdleInt (env : Env) (returnCode : Int) : ExitReq :=
  if env.postTaskOk then ⟨0, [returnCode]⟩ else ⟨1, []⟩

/-- `ExitWhenIdle(const Status&)`: `EX_OK` for an ok status, otherwise the
status's exception code. -/
def exitWhenIdleStatus (env : Env) (st : Status) : ExitReq :=
  if st.isOk then exitWhenIdleInt env 0
  else exitWhenIdleInt env st.exceptionCode

/-- `UECallback::onPayloadApplicationComplete`'s exit-code mapping:
`code == ErrorCode::kSuccess ? EX_OK : 1` (`kSuccess` is 0). -/
def completeExitCode (errorCode : Int) : Int :=
  if errorCode = 0 then 0 else 1

/-- The result of `OnInit`: either it returned a code, or it dereferenced
the null `service_` pointer (crash). -/
inductive InitOutcome where
  | ret (code : Int)
  | crash
deriving DecidableEq

/-- The observable trace of `OnInit`: its outcome, the remote calls issued
in order, the exit codes posted on the loop, and whether the process stays
running with a bound callback (`keep_running`). -/
structure InitTrace where
  outcome : InitOutcome
  calls : List Call
  posted : List Int
  keepRunning : Bool
deriving DecidableEq

/-- The tail of `OnInit` after the action dispatch:
`if (!keep_running) return ExitWhenIdle(EX_OK);` else initialize the binder
watcher and return `EX_OK`. -/
def finishPhase (env : Env) (keepRunning : Bool) (calls : List Call) :
    InitTrace :=
  if !keepRunning then
    let r := exitWhenIdleInt env 0
    ⟨.ret r.ret, calls, r.posted, false⟩
  else
    ⟨.ret 0, calls, [], true⟩

/-- The `if (FLAGS_update)` block of `OnInit`: split the headers flag,
issue `applyPayload(payload, headers)`, and on a not-ok status return
`ExitWhenIdle(status)`. -/
def updatePhase (env : Env) (flags : Flags) (keepRunning : Bool)
    (calls : List Call) : InitTrace :=
  if flags.update then
    match env.service with
    | none => ⟨.crash, calls, [], keepRunning⟩
    | some svc =>
      let headers := splitString flags.headers
      let calls := calls ++ [Call.applyPayload flags.payload headers]
      if !svc.applyPayloadResult.isOk then
        let r := exitWhenIdleStatus env svc.applyPayloadResult
        ⟨.ret r.ret, calls, r.posted, keepRunning⟩
      else
        finishPhase env keepRunning calls
  else
    finishPhase env keepRunning calls

/-- The `if (FLAGS_follow)` block of `OnInit`: register the callback via
`bind`; a not-ok status or a false `bound` out-param returns 1; otherwise
set `keep_running` and fall through to the update block. -/
def followPhase (env : Env) (flags : Flags) : InitTrace :=
  if flags.follow then
    match env.service with
    | none => ⟨.crash, [], [], false⟩
    | some svc =>
      if !svc.bindStatus.isOk || !svc.bindBound then
        ⟨.ret 1, [Call.bind], [], false⟩
      else
        updatePhase env flags true [Call.bind]
  else
    updatePhase env flags false []

/-- `UpdateEngineClientAndroid::OnInit`: the argc and positional-argument
usage checks, then the action dispatch in source order
(`suspend`, `resume`, `cancel`, `follow`, `update`). Dereferencing the
`service_` proxy when `getService` failed is a null-pointer crash. -/
def onInit (env : Env) (flags : Flags) : InitTrace :=
  if env.argc = 1 then
    ⟨.ret 1, [], [], false⟩
  else if env.positionalArgs ≠ [] then
    ⟨.ret 1, [], [], false⟩
  else if flags.suspend then
    match env.service with
    | none => ⟨.crash, [], [], false⟩
    | some svc =>
      let r := exitWhenIdleStatus env svc.suspendResult
      ⟨.ret r.ret, [Call.suspend], r.posted, false⟩
  else if flags.resume then
    match env.service with
    | none => ⟨.crash, [], [], false⟩
    | some svc =>
      let r := exitWhenIdleStatus env svc.resumeResult
      ⟨.ret r.ret, [Call.resume], r.posted, false⟩
  else if flags.cancel then
    match env.service with
    | none => ⟨.crash, [], [], false⟩
    | some svc =>
      let r := exitWhenIdleStatus env svc.cancelResult
      ⟨.ret r.ret, [Call.cancel], r.posted, false⟩
  else
    followPhase env flags

/-- How the whole process ends: `main` returned a code, the process crashed
on a null `service_` dereference, or the message loop runs forever with no
quit task (listening with no terminal notification). -/
inductive ProcResult where
  | exit (code : Int)
  | crash
  | hang
deriving DecidableEq

/-- The tasks a delivered `onPayloadApplicationComplete(errorCode)`
notification posts on the loop (none when `PostTask` fails). -/
def notifTask (env : Env) (errorCode : Int) : List Int :=
  if env.postTaskOk then [completeExitCode errorCode] else []

/-- `brillo::Daemon::Run` semantics for this client: a non-`EX_OK` return
from `OnInit` is the exit code directly; otherwise the single-threaded
message loop runs the queued tasks in FIFO order — the tasks posted during
`OnInit` first, then those posted by delivered completion notifications
(delivered only while a callback is bound) — and the first
`QuitWithExitCode` task to run breaks the loop and fixes the exit code. -/
def runClient (env : Env) (flags : Flags) (notifs : List Int) : ProcResult :=
  let t := onInit env flags
  match t.outcome with
  | .crash => .crash
  | .ret code =>
    if code ≠ 0 then .exit code
    else
      let queue := t.posted ++
        (if t.keepRunning then (notifs.map (notifTask env)).flatten else [])
      match queue with
      | [] => .hang
      | c :: _ => .exit c

/-- The eventual process exit code of a call result routed through
`ExitWhenIdle(const Status&)` when the deferred task can be posted:
0 for an ok status, the status's exception code otherwise. -/
def callExitCode (st : Status) : Int :=
  if st.isOk then 0 else st.exceptionCode

/-- A service for which every call succeeds and `bind` reports bound. -/
def svcAllOk : Service := ⟨⟨0⟩, ⟨0⟩, ⟨0⟩, ⟨0⟩, true, ⟨0⟩⟩

/-- A service whose `suspend` fails with binder exception code
`EX_SERVICE_SPECIFIC` (-8); every other call succeeds. -/
def svcSuspendFails : Service := ⟨⟨-8⟩, ⟨0⟩, ⟨0⟩, ⟨0⟩, true, ⟨0⟩⟩

/-- A service whose `applyPayload` fails with binder exception code -8. -/
def svcApplyFails : Service := ⟨⟨0⟩, ⟨0⟩, ⟨0⟩, ⟨0⟩, true, ⟨-8⟩⟩

/-- An environment with one flag argument, a reachable service whose calls
all succeed, and a working message loop. -/
def envOk : Env := ⟨2, [], some svcAllOk, true⟩

lemma notifTasks_nil {env : Env} (h : env.postTaskOk = false)
    (ns : List Int) : (ns.map (notifTask env)).flatten = [] := by
  induction ns with
  | nil => rfl
  | cons a as ih => simp [notifTask, h, ih]

lemma onInit_update_only_calls (env : Env) (svc : Service) (flags : Flags)
    (hargc : env.argc ≠ 1) (hpos : env.positionalArgs = [])
    (hsvc : env.service = some svc)
    (hs : flags.suspend = false) (hr : flags.resume = false)
    (hc : flags.cancel = false) (hf : flags.follow = false)
    (hu : flags.update = true) :
    (onInit env flags).calls =
      [Call.applyPayload flags.payload (splitString flags.headers)] := by
  cases h : svc.applyPayloadResult.isOk <;>
    simp [onInit, hargc, hpos, hs, hr, hc, followPhase, hf, updatePhase,
      hsvc, hu, h, finishPhase, exitWhenIdleStatus, exitWhenIdleInt]

/-- Claim C1, counterexample: with `--suspend` and a suspend call failing
with binder exception code -8, the process exit code is -8, not 1, so a
failed synchronous call does not yield exit code exactly 1. -/
theorem c1_call_failure_exit_counterexample :
    (Status.isOk ⟨-8⟩) = false ∧
    runClient ⟨2, [], some svcSuspendFails, true⟩
      { defaultFlags with suspend := true } [] = .exit (-8) ∧
    ProcResult.exit (-8) ≠ ProcResult.exit 1 := by decide

/-- Claim C1, amended: an ok call result with no follow pending exits 0; a
failed synchronous call exits with the status's exception code (nonzero,
but not necessarily 1); a non-success error code delivered through the
completion notification exits exactly 1. -/
theorem c1_exit_code_mapping (env : Env) (svc : Service)
    (hargc : env.argc ≠ 1) (hpos : env.positionalArgs = [])
    (hsvc : env.service = some svc) (hpost : env.postTaskOk = true) :
    runClient env { defaultFlags with suspend := true } [] =
      .exit (callExitCode svc.suspendResult) ∧
    runClient env { defaultFlags with resume := true } [] =
      .exit (callExitCode svc.resumeResult) ∧
    runClient env { defaultFlags with cancel := true } [] =
      .exit (callExitCode svc.cancelResult) ∧
    runClient env { defaultFlags with update := true } [] =
      .exit (callExitCode svc.applyPayloadResult) ∧
    (svc.bindStatus.isOk = true → svc.bindBound = true →
      svc.applyPayloadResult.isOk = true → ∀ ec : Int, ec ≠ 0 →
      runClient env { defaultFlags with update := true, follow := true }
        [ec] = .exit 1) ∧
    (∀ st : Status, st.isOk = false → st.exceptionCode ≠ 0) := by
  refine ⟨?_, ?_, ?_, ?_, ?_, ?_⟩
  · cases h : svc.suspendResult.isOk <;>
      simp [runClient, onInit, hargc, hpos, hsvc, hpost, h, callExitCode,
        exitWhenIdleStatus, exitWhenIdleInt, defaultFlags]
  · cases h : svc.resumeResult.isOk <;>
      simp [runClient, onInit, hargc, hpos, hsvc, hpost, h, callExitCode,
        exitWhenIdleStatus, exitWhenIdleInt, defaultFlags]
  · cases h : svc.cancelResult.isOk <;>
      simp [runClient, onInit, hargc, hpos, hsvc, hpost, h, callExitCode,
        exitWhenIdleStatus, exitWhenIdleInt, defaultFlags]
  · cases h : svc.applyPayloadResult.isOk <;>
      simp [runClient, onInit, hargc, hpos, hsvc, hpost, h, callExitCode,
        followPhase, updatePhase, finishPhase,
        exitWhenIdleStatus, exitWhenIdleInt, defaultFlags]
  · intro hb hbound happly ec hec
    simp [runClient, onInit, hargc, hpos, hsvc, hpost, hb, hbound, happly,
      followPhase, updatePhase, finishPhase, notifTask, completeExitCode,
      hec, exitWhenIdleStatus, exitWhenIdleInt, defaultFlags]
  · intro st hst
    simpa [Status.isOk] using hst

/-- Claim C1, witness: instantiates the amended mapping at a concrete
environment whose suspend call fails with exception code -8. -/
theorem c1_exit_code_mapping_witness :
    runClient ⟨2, [], some svcSuspendFails, true⟩
      { defaultFlags with suspend := true } [] =
      .exit (callExitCode svcSuspendFails.suspendResult) :=
  (c1_exit_code_mapping ⟨2, [], some svcSuspendFails, true⟩ svcSuspendFails
    (by decide) rfl rfl rfl).1

/-- Claim C2: requesting exit is effectively-once. Any notification after
the first leaves the process result unchanged, and whenever `OnInit`
already posted a quit task, its first posted code is the final exit code
no matter what notifications are delivered afterwards. -/
theorem c2_request_exit_effectively_once :
    (∀ (env : Env) (flags : Flags) (n : Int) (rest : List Int),
      runClient env flags (n :: rest) = runClient env flags [n]) ∧
    (∀ (env : Env) (flags : Flags) (notifs : List Int) (p : Int)
      (ps : List Int),
      (onInit env flags).outcome = .ret 0 →
      (onInit env flags).posted = p :: ps →
      runClient env flags notifs = .exit p) := by
  constructor
  · intro env flags n rest
    cases hout : (onInit env flags).outcome with
    | crash => simp [runClient, hout]
    | ret code =>
      by_cases hc : code = 0
      · subst hc
        cases hp : (onInit env flags).posted with
        | cons c cs => simp [runClient, hout, hp]
        | nil =>
          cases hk : (onInit env flags).keepRunning
          · simp [runClient, hout, hp, hk]
          · cases hpost : env.postTaskOk
            · simp [runClient, hout, hp, hk, notifTasks_nil hpost]
            · simp [runClient, hout, hp, hk, notifTask, hpost]
      · simp [runClient, hout, hc]
  · intro env flags notifs p ps hout hp
    simp [runClient, hout, hp]

/-- Claim C2, witness: with `--update --follow` where `applyPayload` fails
(posting exit code -8), a later success notification does not change the
final exit code. -/
theorem c2_request_exit_effectively_once_witness :
    runClient ⟨3, [], some svcApplyFails, true⟩
      { defaultFlags with update := true, follow := true } [0] =
      .exit (-8) :=
  c2_request_exit_effectively_once.2 ⟨3, [], some svcApplyFails, true⟩
    { defaultFlags with update := true, follow := true } [0] (-8) []
    (by decide) (by decide)

/-- Claim C3, counterexample: an invocation setting only the non-action
flag `--payload` (so `argc` is 2) issues no remote call but exits with
code 0, not with a usage error and code 1. -/
theorem c3_nonaction_flags_counterexample :
    runClient ⟨2, [], some svcAllOk, true⟩
      { defaultFlags with payload := "http://example.com/p" } [] =
      .exit 0 ∧
    (onInit ⟨2, [], some svcAllOk, true⟩
      { defaultFlags with payload := "http://example.com/p" }).calls = [] ∧
    ProcResult.exit 0 ≠ ProcResult.exit 1 := by decide

/-- Claim C3, amended: only the invocation with no command-line arguments
at all (`argc == 1`) is rejected as a usage error with exit code 1 and no
remote call; an invocation that sets only non-action flags passes
validation, issues no remote call, and exits with code 0. -/
theorem c3_usage_error_only_without_args :
    (∀ (env : Env) (flags : Flags), env.argc = 1 →
      onInit env flags = ⟨.ret 1, [], [], false⟩ ∧
      runClient env flags [] = .exit 1) ∧
    (∀ (env : Env) (flags : Flags), env.argc ≠ 1 →
      env.positionalArgs = [] → env.postTaskOk = true →
      flags.suspend = false → flags.resume = false → flags.cancel = false →
      flags.follow = false → flags.update = false →
      runClient env flags [] = .exit 0 ∧ (onInit env flags).calls = []) := by
  constructor
  · intro env flags h
    constructor
    · simp [onInit, h]
    · simp [runClient, onInit, h]
  · intro env flags hargc hpos hpost hs hr hc hf hu
    constructor
    · simp [runClient, onInit, hargc, hpos, hs, hr, hc, followPhase, hf,
        updatePhase, hu, finishPhase, exitWhenIdleInt, hpost]
    · simp [onInit, hargc, hpos, hs, hr, hc, followPhase, hf,
        updatePhase, hu, finishPhase, exitWhenIdleInt, hpost]

/-- Claim C3, witness: instantiates both parts — the bare invocation is a
usage error exiting 1, and the `--payload`-only invocation exits 0 with no
remote call. -/
theorem c3_usage_error_only_without_args_witness :
    (onInit ⟨1, [], some svcAllOk, true⟩ defaultFlags =
      ⟨.ret 1, [], [], false⟩ ∧
     runClient ⟨1, [], some svcAllOk, true⟩ defaultFlags [] = .exit 1) ∧
    (runClient ⟨2, [], some svcAllOk, true⟩
        { defaultFlags with payload := "p" } [] = .exit 0 ∧
     (onInit ⟨2, [], some svcAllOk, true⟩
        { defaultFlags with payload := "p" }).calls = []) :=
  ⟨c3_usage_error_only_without_args.1 ⟨1, [], some svcAllOk, true⟩
      defaultFlags rfl,
   c3_usage_error_only_without_args.2 ⟨2, [], some svcAllOk, true⟩
      { defaultFlags with payload := "p" }
      (by decide) rfl rfl rfl rfl rfl rfl rfl⟩

/-- Claim C4, counterexample: the usage error for a bare invocation
(`argc == 1`) is a terminal outcome, yet `OnInit` returns 1 inline and no
deferred termination task is ever posted on the event loop. -/
theorem c4_inline_exit_counterexample :
    (onInit ⟨1, [], some svcAllOk, true⟩ defaultFlags).posted = [] ∧
    (onInit ⟨1, [], some svcAllOk, true⟩ defaultFlags).outcome = .ret 1 ∧
    runClient ⟨1, [], some svcAllOk, true⟩ defaultFlags [] = .exit 1 := by
  decide

/-- Claim C4, amended: only call outcomes — the suspend, resume and cancel
results, an `applyPayload` failure, and the nothing-left-to-do success
path — are routed through a deferred termination task posted on the event
loop; usage errors (no arguments, or positional arguments) and a bind
failure terminate inline, returning 1 from initialization with no task
posted. -/
theorem c4_deferred_exit_only_for_call_outcomes (env : Env) (svc : Service)
    (flags : Flags)
    (hargc : env.argc ≠ 1) (hpos : env.positionalArgs = [])
    (hsvc : env.service = some svc) (hpost : env.postTaskOk = true) :
    (flags.suspend = true →
      (onInit env flags).posted = [callExitCode svc.suspendResult] ∧
      (onInit env flags).outcome = .ret 0) ∧
    (flags.suspend = false → flags.resume = true →
      (onInit env flags).posted = [callExitCode svc.resumeResult] ∧
      (onInit env flags).outcome = .ret 0) ∧
    (flags.suspend = false → flags.resume = false → flags.cancel = true →
      (onInit env flags).posted = [callExitCode svc.cancelResult] ∧
      (onInit env flags).outcome = .ret 0) ∧
    (flags.suspend = false → flags.resume = false → flags.cancel = false →
      flags.follow = false → flags.update = true →
      svc.applyPayloadResult.isOk = false →
      (onInit env flags).posted = [svc.applyPayloadResult.exceptionCode] ∧
      (onInit env flags).outcome = .ret 0) ∧
    (flags.suspend = false → flags.resume = false → flags.cancel = false →
      flags.follow = false → flags.update = false →
      (onInit env flags).posted = [0] ∧
      (onInit env flags).outcome = .ret 0) ∧
    (∀ env2 : Env, env2.argc = 1 →
      (onInit env2 flags).posted = [] ∧
      (onInit env2 flags).outcome = .ret 1) ∧
    (∀ env3 : Env, env3.argc ≠ 1 → env3.positionalArgs ≠ [] →
      (onInit env3 flags).posted = [] ∧
      (onInit env3 flags).outcome = .ret 1) ∧
    (flags.suspend = false → flags.resume = false → flags.cancel = false →
      flags.follow = true → svc.bindBound = false →
      (onInit env flags).posted = [] ∧
      (onInit env flags).outcome = .ret 1) := by
  refine ⟨?_, ?_, ?_, ?_, ?_, ?_, ?_, ?_⟩
  · intro hs
    cases h : svc.suspendResult.isOk <;>
      constructor <;>
      simp [onInit, hargc, hpos, hsvc, hs, h, callExitCode,
        exitWhenIdleStatus, exitWhenIdleInt, hpost]
  · intro hs hr
    cases h : svc.resumeResult.isOk <;>
      constructor <;>
      simp [onInit, hargc, hpos, hsvc, hs, hr, h, callExitCode,
        exitWhenIdleStatus, exitWhenIdleInt, hpost]
  · intro hs hr hc
    cases h : svc.cancelResult.isOk <;>
      constructor <;>
      simp [onInit, hargc, hpos, hsvc, hs, hr, hc, h, callExitCode,
        exitWhenIdleStatus, exitWhenIdleInt, hpost]
  · intro hs hr hc hf hu happ
    constructor <;>
      simp [onInit, hargc, hpos, hsvc, hs, hr, hc, followPhase, hf,
        updatePhase, hu, happ, exitWhenIdleStatus, exitWhenIdleInt, hpost]
  · intro hs hr hc hf hu
    constructor <;>
      simp [onInit, hargc, hpos, hsvc, hs, hr, hc, followPhase, hf,
        updatePhase, hu, finishPhase, exitWhenIdleInt, hpost]
  · intro env2 h2
    constructor <;> simp [onInit, h2]
  · intro env3 h3 h3pos
    constructor <;> simp [onInit, h3, h3pos]
  · intro hs hr hc hf hbound
    constructor <;>
      simp [onInit, hargc, hpos, hsvc, hs, hr, hc, followPhase, hf, hbound]

/-- Claim C4, witness: instantiates the amended statement — a successful
suspend posts its exit code 0 as a task, a failing `applyPayload` posts
its exception code -8 as a task, while the bare invocation's usage error
posts nothing and returns 1 inline. -/
theorem c4_deferred_exit_only_for_call_outcomes_witness :
    ((onInit ⟨2, [], some svcAllOk, true⟩
        { defaultFlags with suspend := true }).posted =
      [callExitCode svcAllOk.suspendResult] ∧
     (onInit ⟨2, [], some svcAllOk, true⟩
        { defaultFlags with suspend := true }).outcome = .ret 0) ∧
    ((onInit ⟨2, [], some svcApplyFails, true⟩
        { defaultFlags with update := true }).posted =
      [svcApplyFails.applyPayloadResult.exceptionCode] ∧
     (onInit ⟨2, [], some svcApplyFails, true⟩
        { defaultFlags with update := true }).outcome = .ret 0) ∧
    ((onInit ⟨1, [], some svcAllOk, true⟩
        { defaultFlags with suspend := true }).posted = [] ∧
     (onInit ⟨1, [], some svcAllOk, true⟩
        { defaultFlags with suspend := true }).outcome = .ret 1) :=
  ⟨(c4_deferred_exit_only_for_call_outcomes ⟨2, [], some svcAllOk, true⟩
      svcAllOk { defaultFlags with suspend := true }
      (by decide) rfl rfl rfl).1 rfl,
   (c4_deferred_exit_only_for_call_outcomes ⟨2, [], some svcApplyFails, true⟩
      svcApplyFails { defaultFlags with update := true }
      (by decide) rfl rfl rfl).2.2.2.1 rfl rfl rfl rfl rfl (by decide),
   (c4_deferred_exit_only_for_call_outcomes ⟨2, [], some svcAllOk, true⟩
      svcAllOk { defaultFlags with suspend := true }
      (by decide) rfl rfl rfl).2.2.2.2.2.1 ⟨1, [], some svcAllOk, true⟩ rfl⟩

/-- Claim C5: actions are dispatched in the fixed priority order
suspend > resume > cancel > (follow registration, then update); only the
first matching action runs, and suspend, resume and cancel each finish
immediately with their call's outcome, issuing neither `bind` nor
`applyPayload`. -/
theorem c5_action_priority (env : Env) (svc : Service) (flags : Flags)
    (hargc : env.argc ≠ 1) (hpos : env.positionalArgs = [])
    (hsvc : env.service = some svc) :
    (flags.suspend = true →
      onInit env flags =
        ⟨.ret (exitWhenIdleStatus env svc.suspendResult).ret, [Call.suspend],
          (exitWhenIdleStatus env svc.suspendResult).posted, false⟩) ∧
    (flags.suspend = false → flags.resume = true →
      onInit env flags =
        ⟨.ret (exitWhenIdleStatus env svc.resumeResult).ret, [Call.resume],
          (exitWhenIdleStatus env svc.resumeResult).posted, false⟩) ∧
    (flags.suspend = false → flags.resume = false → flags.cancel = true →
      onInit env flags =
        ⟨.ret (exitWhenIdleStatus env svc.cancelResult).ret, [Call.cancel],
          (exitWhenIdleStatus env svc.cancelResult).posted, false⟩) ∧
    (flags.suspend = false → flags.resume = false → flags.cancel = false →
      flags.follow = true → svc.bindStatus.isOk = true →
      svc.bindBound = true → flags.update = true →
      (onInit env flags).calls =
        [Call.bind,
          Call.applyPayload flags.payload (splitString flags.headers)]) := by
  refine ⟨?_, ?_, ?_, ?_⟩
  · intro hs
    simp [onInit, hargc, hpos, hsvc, hs]
  · intro hs hr
    simp [onInit, hargc, hpos, hsvc, hs, hr]
  · intro hs hr hc
    simp [onInit, hargc, hpos, hsvc, hs, hr, hc]
  · intro hs hr hc hf hb hbound hu
    cases h : svc.applyPayloadResult.isOk <;>
      simp [onInit, hargc, hpos, hsvc, hs, hr, hc, followPhase, hf, hb,
        hbound, updatePhase, hu, h, finishPhase, exitWhenIdleStatus,
        exitWhenIdleInt]

/-- A flag record with every action flag set at once. -/
def flagsAllActions : Flags :=
  ⟨true, defaultFlags.payload, defaultFlags.headers, true, true, true, true⟩

/-- Claim C5, witness: with every action flag set at once, only `suspend`
runs and the trace holds exactly the suspend call. -/
theorem c5_action_priority_witness :
    onInit ⟨6, [], some svcAllOk, true⟩ flagsAllActions =
      ⟨.ret (exitWhenIdleStatus ⟨6, [], some svcAllOk, true⟩
          svcAllOk.suspendResult).ret, [Call.suspend],
        (exitWhenIdleStatus ⟨6, [], some svcAllOk, true⟩
          svcAllOk.suspendResult).posted, false⟩ :=
  (c5_action_priority ⟨6, [], some svcAllOk, true⟩ svcAllOk flagsAllActions
    (by decide) rfl rfl).1 rfl

/-- Claim C6: with `--update --follow`, a successful bind and a successful
`applyPayload`, the completion notification drives termination: a success
error code (0) maps to exit code 0 and every non-success code to exit
code 1. -/
theorem c6_follow_completion_mapping (env : Env) (svc : Service) (ec : Int)
    (hargc : env.argc ≠ 1) (hpos : env.positionalArgs = [])
    (hsvc : env.service = some svc) (hpost : env.postTaskOk = true)
    (hb : svc.bindStatus.isOk = true) (hbound : svc.bindBound = true)
    (happly : svc.applyPayloadResult.isOk = true) :
    runClient env { defaultFlags with update := true, follow := true }
      [ec] = .exit (completeExitCode ec) ∧
    (ec = 0 →
      runClient env { defaultFlags with update := true, follow := true }
        [ec] = .exit 0) ∧
    (ec ≠ 0 →
      runClient env { defaultFlags with update := true, follow := true }
        [ec] = .exit 1) := by
  have hrun : runClient env
      { defaultFlags with update := true, follow := true } [ec] =
      .exit (completeExitCode ec) := by
    simp [runClient, onInit, hargc, hpos, hsvc, hb, hbound, happly,
      followPhase, updatePhase, finishPhase, notifTask, hpost, defaultFlags]
  refine ⟨hrun, ?_, ?_⟩
  · intro h
    simpa [completeExitCode, h] using hrun
  · intro h
    simpa [completeExitCode, h] using hrun

/-- Claim C6, witness: a non-success completion code 7 after a successful
`--update --follow` run exits with code 1. -/
theorem c6_follow_completion_mapping_witness :
    runClient ⟨3, [], some svcAllOk, true⟩
      { defaultFlags with update := true, follow := true } [7] = .exit 1 :=
  (c6_follow_completion_mapping ⟨3, [], some svcAllOk, true⟩ svcAllOk 7
    (by decide) rfl rfl rfl rfl rfl rfl).2.2 (by decide)

/-- Claim C7, counterexample: with the remote service unreachable,
`--suspend` dereferences the null proxy and crashes; it does not terminate
with exit code 1. -/
theorem c7_null_service_crash_counterexample :
    runClient ⟨2, [], none, true⟩ { defaultFlags with suspend := true }
      [] = .crash ∧
    ProcResult.crash ≠ ProcResult.exit 1 := by decide

/-- Claim C7, amended: if connecting to the remote service fails the
client records the error and continues, and every flow that subsequently
dereferences the proxy (suspend, resume, cancel, follow, update)
dereferences a null pointer and crashes rather than exiting with code 1. -/
theorem c7_null_service_crashes (env : Env)
    (hargc : env.argc ≠ 1) (hpos : env.positionalArgs = [])
    (hsvc : env.service = none) :
    runClient env { defaultFlags with suspend := true } [] = .crash ∧
    runClient env { defaultFlags with resume := true } [] = .crash ∧
    runClient env { defaultFlags with cancel := true } [] = .crash ∧
    runClient env { defaultFlags with follow := true } [] = .crash ∧
    runClient env { defaultFlags with update := true } [] = .crash := by
  refine ⟨?_, ?_, ?_, ?_, ?_⟩ <;>
    simp [runClient, onInit, hargc, hpos, hsvc, followPhase, updatePhase]

/-- Claim C7, witness: instantiates the amended statement at a concrete
environment whose service lookup failed. -/
theorem c7_null_service_crashes_witness :
    runClient ⟨2, [], none, true⟩ { defaultFlags with update := true }
      [] = .crash :=
  (c7_null_service_crashes ⟨2, [], none, true⟩
    (by decide) rfl rfl).2.2.2.2

/-- Claim C8, counterexample: with `--update --payload=""` the client does
not reject the empty URI; `applyPayload` is invoked with the empty string
and the invocation is not a usage error (OnInit returns 0). -/
theorem c8_empty_uri_counterexample :
    (onInit ⟨3, [], some svcAllOk, true⟩
      { defaultFlags with update := true, payload := "" }).calls =
      [Call.applyPayload "" []] ∧
    (onInit ⟨3, [], some svcAllOk, true⟩
      { defaultFlags with update := true, payload := "" }).outcome =
      .ret 0 := by decide

/-- Claim C8, amended: the client performs no validation of the payload
URI: in the update flow `applyPayload` is always invoked with the flag's
value verbatim — including the empty string — and no usage error is
raised beforehand. -/
theorem c8_no_uri_validation (env : Env) (svc : Service) (flags : Flags)
    (hargc : env.argc ≠ 1) (hpos : env.positionalArgs = [])
    (hsvc : env.service = some svc)
    (hs : flags.suspend = false) (hr : flags.resume = false)
    (hc : flags.cancel = false) (hf : flags.follow = false)
    (hu : flags.update = true) :
    (onInit env flags).calls =
      [Call.applyPayload flags.payload (splitString flags.headers)] :=
  onInit_update_only_calls env svc flags hargc hpos hsvc hs hr hc hf hu

/-- Claim C8, witness: instantiates the amended statement at an invocation
whose payload flag is the empty string. -/
theorem c8_no_uri_validation_witness :
    (onInit ⟨3, [], some svcAllOk, true⟩
      { defaultFlags with update := true, payload := "" }).calls =
      [Call.applyPayload "" (splitString "")] :=
  c8_no_uri_validation ⟨3, [], some svcAllOk, true⟩ svcAllOk
    { defaultFlags with update := true, payload := "" }
    (by decide) rfl rfl rfl rfl rfl rfl rfl

/-- Claim C9: the headers flag is split on newlines with empty lines
discarded and the resulting ordered sequence is what `applyPayload`
receives; in particular "a: 1\n\nb: 2\n" yields exactly
["a: 1", "b: 2"]. -/
theorem c9_headers_split (env : Env) (svc : Service) (flags : Flags)
    (hargc : env.argc ≠ 1) (hpos : env.positionalArgs = [])
    (hsvc : env.service = some svc)
    (hs : flags.suspend = false) (hr : flags.resume = false)
    (hc : flags.cancel = false) (hf : flags.follow = false)
    (hu : flags.update = true) :
    (onInit env flags).calls =
      [Call.applyPayload flags.payload (splitString flags.headers)] ∧
    splitString "a: 1\n\nb: 2\n" = ["a: 1", "b: 2"] := by
  refine ⟨onInit_update_only_calls env svc flags hargc hpos hsvc
    hs hr hc hf hu, ?_⟩
  decide

/-- Claim C9, witness: an update invocation whose headers flag is
"a: 1\n\nb: 2\n" passes exactly ["a: 1", "b: 2"] to `applyPayload`. -/
theorem c9_headers_split_witness :
    (onInit ⟨4, [], some svcAllOk, true⟩
      { defaultFlags with update := true, headers := "a: 1\n\nb: 2\n" }).calls =
      [Call.applyPayload defaultFlags.payload (splitString "a: 1\n\nb: 2\n")] ∧
    splitString "a: 1\n\nb: 2\n" = ["a: 1", "b: 2"] :=
  c9_headers_split ⟨4, [], some svcAllOk, true⟩ svcAllOk
    { defaultFlags with update := true, headers := "a: 1\n\nb: 2\n" }
    (by decide) rfl rfl rfl rfl rfl rfl rfl

/-- Claim C10: header splitting removes only zero-length lines, never
whitespace-only ones: every non-empty line of the headers value — in
particular a line made solely of whitespace, as in "a: 1\n \nb: 2" — is
kept verbatim and is among the headers handed to `applyPayload`. -/
theorem c10_whitespace_lines_kept :
    (∀ (s l : String), l ∈ splitLinesAux s.data [] → l ≠ "" →
      l ∈ splitString s) ∧
    splitString "a: 1\n \nb: 2" = ["a: 1", " ", "b: 2"] ∧
    (∀ (env : Env) (svc : Service) (flags : Flags) (l : String),
      env.argc ≠ 1 → env.positionalArgs = [] → env.service = some svc →
      flags.suspend = false → flags.resume = false → flags.cancel = false →
      flags.follow = false → flags.update = true →
      l ∈ splitLinesAux flags.headers.data [] → l ≠ "" →
      (onInit env flags).calls =
        [Call.applyPayload flags.payload (splitString flags.headers)] ∧
      l ∈ splitString flags.headers) := by
  have hmem : ∀ (s l : String), l ∈ splitLinesAux s.data [] → l ≠ "" →
      l ∈ splitString s := by
    intro s l hl hne
    simp [splitString, List.mem_filter, hl, hne]
  refine ⟨hmem, by decide, ?_⟩
  intro env svc flags l hargc hpos hsvc hs hr hc hf hu hl hne
  exact ⟨onInit_update_only_calls env svc flags hargc hpos hsvc
    hs hr hc hf hu, hmem flags.headers l hl hne⟩

/-- Claim C10, witness: the whitespace-only line " " of the headers value
"a: 1\n \nb: 2" is kept by the split. -/
theorem c10_whitespace_lines_kept_witness :
    " " ∈ splitString "a: 1\n \nb: 2" :=
  c10_whitespace_lines_kept.1 "a: 1\n \nb: 2" " " (by decide) (by decide)

end UpdateEngineClient
